import Mathlib

/-!
# Verification of the Repository/Factory data-access layer

Shallow embedding of the generic Repository + Adapter-Factory layer of the
`repository-factory-pattern` repository:

* `QueryOptions`, `QueryArgs`, `PaginatedResult` — the query/pagination data
  model (`src/common` query types).
* `buildQueryArgs`, `findAllPaginated` — `BaseRepository` argument
  normalization and pagination (`base.repository.ts`).
* the lazily-memoized Delegate getter (`BaseRepository.database`).
* `PrismaAdapterFactory.createAdapter` / `createUserAdapter`.
* `TransactionalBaseRepository.withTransaction` and the transaction-bound
  clone it builds with `Object.create` + property assignment.
* an in-memory store delegate, modelled from the spec, for the relational
  property `count(where) = length(findMany(where))`.

JavaScript numbers are modelled as `Int` (all values involved are integers),
`T | undefined` as `Option T`, and thrown exceptions as `Except JsErr`.
-/

namespace RepoFactory

/-- A thrown JavaScript exception: either a plain `Error` (as thrown by the
adapter factory) or a `TypeError` (as raised by the language runtime). -/
inductive JsErr where
  | error (msg : String)
  | typeError (msg : String)
  deriving DecidableEq, Repr

/-- Sort direction of `SortOptions` (`'asc' | 'desc'`). -/
inductive Direction where
  | asc
  | desc
  deriving DecidableEq, Repr

/-- One `(field, direction)` pair of an `orderBy` list (`SortOptions<T>`). -/
structure SortOption where
  filter : String
  direction : Direction
  deriving DecidableEq, Repr

/-- A `where` condition: per-field equality constraints (`Partial<T>`).
A field that is absent from the list is unconstrained. -/
abbrev WhereCond : Type := List (String × Int)

/-- An entity record: a finite map from field names to (integer) values.
The Repository layer treats entities as opaque apart from `id`. -/
abbrev Entity : Type := List (String × Int)

/-- Maps used for `include`/`select` (`Record<string, any>`): field → flag. -/
abbrev FieldMap : Type := List (String × Bool)

/-- Query options (`QueryOptions<T>`): pagination params + filter options +
`orderBy`.  Every field is optional; `none` models an absent (or explicitly
`undefined`) key.  `where`/`include` are Lean keywords, hence the trailing
underscores. -/
structure QueryOptions where
  page : Option Int := none
  limit : Option Int := none
  skip : Option Int := none
  take : Option Int := none
  where_ : Option WhereCond := none
  include_ : Option FieldMap := none
  select : Option FieldMap := none
  orderBy : Option (List SortOption) := none
  deriving DecidableEq, Repr

/-- The argument object handed to the Delegate by `buildQueryArgs`: a key is
present in the object iff the corresponding field is `some`. -/
structure QueryArgs where
  where_ : Option WhereCond := none
  include_ : Option FieldMap := none
  select : Option FieldMap := none
  orderBy : Option (List SortOption) := none
  skip : Option Int := none
  take : Option Int := none
  deriving DecidableEq, Repr

/-- Pagination response (`PaginatedResult<T>`, `src/common` query types). -/
structure PaginatedResult where
  data : List Entity
  total : Int
  page : Int
  limit : Int
  totalPages : Int
  hasNext : Bool
  hasPrevious : Bool
  deriving DecidableEq, Repr

/-- JavaScript `x || d` on an optional number: `undefined` and the only
falsy integer, `0`, both select the default `d`. -/
def jsOr (x : Option Int) (d : Int) : Int :=
  match x with
  | none => d
  | some v => if v = 0 then d else v

/-- The value of `Math.ceil(a / b)` on integer operands: the ceiling of the
exact rational quotient, written with floor division so that it evaluates
by kernel reduction (`⌈x⌉ = -⌊-x⌋`).  JavaScript divides as reals; for
`b ≠ 0` and integer `a`, `Math.ceil` of the float quotient is this ceiling
(`jsCeilDiv_eq_ceil` below).  `b = 0` is outside the model — JavaScript
would produce `Infinity`/`NaN` — and every theorem below keeps `b`
nonzero. -/
def jsCeilDiv (a b : Int) : Int :=
  -(Int.fdiv (-a) b)

/-!
## `BaseRepository.buildQueryArgs` (base.repository.ts, lines 200-211)

```ts
protected buildQueryArgs(options?: QueryOptions<T>): any {
  const args: any = {};
  if (options?.where) args.where = options.where;
  if (options?.include) args.include = options.include;
  if (options?.select) args.select = options.select;
  if (options?.orderBy) args.orderBy = options.orderBy;
  if (options?.skip !== undefined) args.skip = options.skip; // 0 allowed
  if (options?.take !== undefined) args.take = options.take; // 0 allowed
  return args;
}
```

`where`/`include`/`select`/`orderBy` are object-typed (`Partial<T>`,
`Record<string, any>`, `SortOptions[]`); an object value is never falsy in
JavaScript, so on well-typed inputs the truthiness test `if (options?.x)`
holds exactly when the key was supplied with a non-`undefined` value.
`skip`/`take` are number-typed and compared against `undefined` explicitly,
so `0` passes through.
-/

/-- Truthiness of a supplied object-typed value.  The only falsy JavaScript
values are `false`, `±0`, `NaN`, `''`, `null` and `undefined`; a value of an
object type (`Partial<T>`, `Record<string, any>`, `SortOptions[]`) is never
one of these (`undefined`/`null` are already excluded by `Option`), so the
test is constantly `true`. -/
def jsTruthyObj {α : Type} (_ : α) : Bool := true

/-- Copy an object-typed key under the code's `if (options?.x)` test. -/
def copyIfTruthy {α : Type} (x : Option α) : Option α :=
  match x with
  | some v => if jsTruthyObj v then some v else none
  | none => none

def buildQueryArgs (options : Option QueryOptions) : QueryArgs :=
  { where_ := copyIfTruthy (options.bind QueryOptions.where_)
    include_ := copyIfTruthy (options.bind QueryOptions.include_)
    select := copyIfTruthy (options.bind QueryOptions.select)
    orderBy := copyIfTruthy (options.bind QueryOptions.orderBy)
    skip := options.bind QueryOptions.skip
    take := options.bind QueryOptions.take }

/-!
## `BaseRepository.findAllPaginated` (base.repository.ts, lines 99-124)

```ts
const page = options?.page || 1;
const limit = options?.limit || this.defaultLimit;
const skip = options?.skip || (page - 1) * limit;
const [data, total] = await Promise.all([
  this.database.findMany(this.buildQueryArgs({ ...options, skip, take: limit })),
  this.database.count({ where: options?.where }),
]);
const totalPages = Math.ceil(total / limit);
return { data, total, page, limit, totalPages,
         hasNext: page < totalPages, hasPrevious: page > 1 };
```

The two delegate reads are modelled as pure response functions of a
`Delegate` record: `findMany` maps the argument object to the returned
record list, `count` maps the (possibly absent) `where` to the returned
total.
-/

/-- The two read operations of the Delegate that `findAllPaginated` issues,
as pure response functions. -/
structure Delegate where
  findMany : QueryArgs → List Entity
  count : Option WhereCond → Int

/-- Effective page: `options?.page || 1`. -/
def effPage (options : QueryOptions) : Int := jsOr options.page 1

/-- Effective limit: `options?.limit || this.defaultLimit`. -/
def effLimit (defaultLimit : Int) (options : QueryOptions) : Int :=
  jsOr options.limit defaultLimit

/-- Effective skip: `options?.skip || (page - 1) * limit`. -/
def effSkip (defaultLimit : Int) (options : QueryOptions) : Int :=
  jsOr options.skip ((effPage options - 1) * effLimit defaultLimit options)

/-- The argument object `findAllPaginated` hands to `findMany`:
`buildQueryArgs({ ...options, skip, take: limit })` — the spread keeps the
caller's keys, then the computed `skip` and `take: limit` overwrite the
caller's `skip`/`take`. -/
def paginatedArgs (defaultLimit : Int) (options : QueryOptions) : QueryArgs :=
  buildQueryArgs (some { options with
    skip := some (effSkip defaultLimit options)
    take := some (effLimit defaultLimit options) })

/-- The body of `BaseRepository.findAllPaginated`, given the repository's
configured `defaultLimit` and the Delegate's responses. -/
def findAllPaginated (defaultLimit : Int) (d : Delegate)
    (options : QueryOptions) : PaginatedResult :=
  let page := effPage options
  let limit := effLimit defaultLimit options
  let data := d.findMany (paginatedArgs defaultLimit options)
  let total := d.count options.where_
  let totalPages := jsCeilDiv total limit
  { data := data
    total := total
    page := page
    limit := limit
    totalPages := totalPages
    hasNext := decide (page < totalPages)
    hasPrevious := decide (page > 1) }

/-!
## Lazy Delegate memoization (`BaseRepository.database` getter, lines 29-34)

```ts
protected get database(): DatabaseDelegate {
  if (!this._database) {
    this._database = this.adapterFactory.createAdapter(this.modelName);
  }
  return this._database;
}
```

Delegate instances are identified by a `DelegateId`.  To observe whether the
factory could ever be consulted twice, the factory is modelled as a function
of the model name *and* of how many times it has been invoked so far
(`createAdapter name k` is the instance the factory would hand out on its
`k`-th invocation); the state tracks that invocation counter.  A constructed
Delegate is an object, hence truthy, so `!this._database` is exactly the
`Option.isNone` test.
-/

/-- Identity of a constructed Delegate instance. -/
abbrev DelegateId : Type := Nat

/-- Mutable state of one `BaseRepository` instance: the memoized
`_database` field, plus an instrumentation counter of how many times
`adapterFactory.createAdapter` has been invoked. -/
structure LazyDelegateState where
  _database : Option DelegateId := none
  factoryCalls : Nat := 0
  deriving DecidableEq, Repr

/-- One evaluation of the `database` getter: returns the Delegate used by
the current operation and the successor state. -/
def databaseGet (createAdapter : String → Nat → DelegateId) (modelName : String)
    (s : LazyDelegateState) : DelegateId × LazyDelegateState :=
  match s._database with
  | some d => (d, s)
  | none =>
    let d := createAdapter modelName s.factoryCalls
    (d, { _database := some d, factoryCalls := s.factoryCalls + 1 })

/-- Run `n` successive repository operations, each of which resolves its
Delegate through the `database` getter; collect the Delegate each operation
used and the final state. -/
def runAccesses (createAdapter : String → Nat → DelegateId) (modelName : String) :
    Nat → LazyDelegateState → List DelegateId × LazyDelegateState
  | 0, s => ([], s)
  | n + 1, s =>
    let r := databaseGet createAdapter modelName s
    let rest := runAccesses createAdapter modelName n r.2
    (r.1 :: rest.1, rest.2)

/-!
## Adapter factory (`PrismaAdapterFactory`, common/interface/base.repository.ts
lines 116-140 and its duplicate with an extended message)

```ts
createAdapter(modelName: string): DatabaseDelegate {
  const modelKey = modelName.toLowerCase();
  const adapter = this.databaseClient[modelKey];
  if (!adapter) {
    throw new Error(`Database model '${modelName}' not found in DatabaseClient`);
  }
  return adapter;
}
createUserAdapter(): DatabaseDelegate {
  return this.databaseClient.user;
}
```

The database client's per-model accessors are modelled as a binding table
from (lower-case) property name to `DelegateId`; indexing a missing
property yields `undefined` (`none`), which is falsy.  A present accessor
is an object, hence truthy.  The runtime result of either factory method is
`Except JsErr (Option DelegateId)`: a thrown error, or a returned value
that may be `undefined` (the declared return type notwithstanding,
`createUserAdapter` can return `undefined` at runtime).
-/

/-- A database client's binding table: lower-cased model key → accessor. -/
abbrev ClientBindings : Type := List (String × DelegateId)

/-- The value of `modelName.toLowerCase()`: character-wise ASCII
lowercasing (the model names appearing in this code base — `User`,
`Post` — are plain ASCII, on which `toLowerCase` acts per character). -/
def jsToLower (s : String) : String :=
  String.mk (s.data.map Char.toLower)

/-- Method `PrismaAdapterFactory.createAdapter`. -/
def prismaCreateAdapter (databaseClient : ClientBindings) (modelName : String) :
    Except JsErr (Option DelegateId) :=
  let modelKey := jsToLower modelName
  match databaseClient.lookup modelKey with
  | some adapter => .ok (some adapter)
  | none =>
      .error (.error ("Database model '" ++ modelName ++
        "' not found in DatabaseClient"))

/-- Method `PrismaAdapterFactory.createUserAdapter`: returns
`this.databaseClient.user` directly, with no absence check. -/
def prismaCreateUserAdapter (databaseClient : ClientBindings) :
    Except JsErr (Option DelegateId) :=
  .ok (databaseClient.lookup "user")

/-!
## In-memory store delegate

Modelled from the spec: the concrete store executing Delegate operations
(the Prisma engine behind the per-entity accessors) is not part of the
repository's sources.  Section 4.2 of the spec fixes its read semantics:
`findMany(options) → sequence of Entity` returns the records matching the
per-field-equality `where` condition (absent `where` matches everything),
restricted to the `skip`/`take` window, and `count(where?) → integer ≥ 0`
returns the number of matching records.
-/

/-- Per-field equality match of a `where` condition against an entity. -/
def matchesWhere (w : WhereCond) (e : Entity) : Bool :=
  w.all fun kv => e.lookup kv.1 == some kv.2

/-- Match against a possibly-absent `where` (absent = unconstrained). -/
def matchesOptWhere (w : Option WhereCond) (e : Entity) : Bool :=
  match w with
  | none => true
  | some w => matchesWhere w e

/-- Modelled from the spec: the store's `findMany` (filter by `where`,
then apply the `skip`/`take` window). -/
def storeFindMany (store : List Entity) (args : QueryArgs) : List Entity :=
  let filtered := store.filter (matchesOptWhere args.where_)
  let afterSkip :=
    match args.skip with
    | none => filtered
    | some s => filtered.drop s.toNat
  match args.take with
  | none => afterSkip
  | some t => afterSkip.take t.toNat

/-- Modelled from the spec: the store's `count` (number of matches). -/
def storeCount (store : List Entity) (w : Option WhereCond) : Int :=
  (store.filter (matchesOptWhere w)).length

/-- Method `BaseRepository.findMany(where)`: normalizes `{ where }` through
`buildQueryArgs` and delegates to the store's `findMany`. -/
def repoFindMany (store : List Entity) (w : WhereCond) : List Entity :=
  storeFindMany store (buildQueryArgs (some { where_ := some w }))

/-- Method `BaseRepository.count(where?)`: delegates to the store's
`count({ where })`. -/
def repoCount (store : List Entity) (w : Option WhereCond) : Int :=
  storeCount store w

/-!
## Transactional Repository (`TransactionalBaseRepository.withTransaction`,
transactional.base.repository.ts lines 20-31)

```ts
async withTransaction<R>(callback): Promise<R> {
  return await this.databaseClient.$transaction(async (tx: any) => {
    const transactionalRepo = Object.create(Object.getPrototypeOf(this));
    transactionalRepo.database = tx[this.modelName.toLowerCase()];
    transactionalRepo.modelName = this.modelName;
    transactionalRepo.defaultLimit = this.defaultLimit;
    return await callback(transactionalRepo);
  });
}
```

Property semantics of the clone construction:

* `Object.create(Object.getPrototypeOf(this))` produces an object with *no
  own properties* whose prototype chain is the repository's class
  prototypes.  In particular it does not copy the instance fields
  `adapterFactory`, `defaultLimit`, `_database`, `databaseClient`.
* `BaseRepository` declares `database` as a `get`-only accessor
  (`protected get database()`), which lives on `BaseRepository.prototype`.
  The prototype chain of the clone therefore carries a `database` accessor
  with no setter.
* All code inside an ECMAScript class body is strict-mode code, so the
  assignment `transactionalRepo.database = tx[...]` — a `[[Set]]` that
  reaches a setter-less accessor on the prototype chain — throws
  `TypeError` instead of creating an own property.
* `modelName` and `defaultLimit` are ordinary instance fields (no accessor
  on any prototype), so those assignments would create own data properties.

The `$transaction` handle runs its body against the shared store, commits
the body's final store on normal return, and on a thrown failure discards
the body's writes (rollback) and rethrows the failure to the caller.
-/

/-- A JavaScript value stored in an own property of the clone. -/
inductive JsValue where
  | num (n : Int)
  | str (s : String)
  | delegate (d : DelegateId)
  | undef
  deriving DecidableEq, Repr

/-- Own-property table of a JavaScript object. -/
abbrev OwnProps : Type := List (String × JsValue)

/-- Property names that the repository class prototypes expose as
accessors with a getter and no setter: exactly `database`
(`BaseRepository`'s lazy getter). -/
def getOnlyAccessorProps : List String := ["database"]

/-- Strict-mode assignment `obj.k = v` on the transaction clone: if the
prototype chain holds a setter-less accessor named `k`, the assignment
throws `TypeError`; otherwise it creates/overwrites an own data
property. -/
def jsStrictSetOnClone (own : OwnProps) (k : String) (v : JsValue) :
    Except JsErr OwnProps :=
  if getOnlyAccessorProps.contains k then
    .error (.typeError ("Cannot set property " ++ k ++
      " of #<BaseRepository> which has only a getter"))
  else
    .ok ((k, v) :: own)

/-- The clone-construction block executed inside the `$transaction`
callback, statement by statement. -/
def buildTransactionalClone (txDelegate : Option DelegateId)
    (modelName : String) (defaultLimit : Int) : Except JsErr OwnProps := do
  let own0 : OwnProps := []
  let own1 ← jsStrictSetOnClone own0 "database"
    (match txDelegate with
     | some d => .delegate d
     | none => .undef)
  let own2 ← jsStrictSetOnClone own1 "modelName" (.str modelName)
  let own3 ← jsStrictSetOnClone own2 "defaultLimit" (.num defaultLimit)
  pure own3

/-- Transaction scope of the store handle (`databaseClient.$transaction`):
run the body on the current store; commit its store on normal return, roll
back to the entry store and rethrow on failure. -/
def jsTransaction {R : Type} (store : List Entity)
    (body : List Entity → Except JsErr (R × List Entity)) :
    Except JsErr R × List Entity :=
  match body store with
  | .ok (r, store') => (.ok r, store')
  | .error e => (.error e, store)

/-- Method `TransactionalBaseRepository.withTransaction`.  `txModels` is
the transaction handle's per-entity accessor table (`tx[...]`); the
callback receives the constructed clone's own properties and may read and
write the transaction's view of the store. -/
def withTransaction {R : Type} (modelName : String) (defaultLimit : Int)
    (txModels : ClientBindings) (store : List Entity)
    (callback : OwnProps → List Entity → Except JsErr (R × List Entity)) :
    Except JsErr R × List Entity :=
  jsTransaction store fun s => do
    let clone ← buildTransactionalClone (txModels.lookup (jsToLower modelName))
      modelName defaultLimit
    callback clone s

/-!
## Auxiliary predicates and concrete instances used by the theorems
-/

/-- A Delegate honors the `take` argument when, for every argument object
carrying a nonnegative `take`, `findMany` returns at most that many
records. -/
def HonorsTake (d : Delegate) : Prop :=
  ∀ (args : QueryArgs) (t : Int), args.take = some t → 0 ≤ t →
    ((d.findMany args).length : Int) ≤ t

/-- A trivial Delegate whose reads return an empty page and a zero total. -/
def noopDelegate : Delegate :=
  { findMany := fun _ => []
    count := fun _ => 0 }

/-- Options supplying `page: 0, limit: 0` (falsy but not `undefined`). -/
def c1Opts : QueryOptions :=
  { page := some 0, limit := some 0 }

/-- Options supplying `page: 2, limit: 10, skip: 0, take: 5`. -/
def c2Opts : QueryOptions :=
  { page := some 2, limit := some 10, skip := some 0, take := some 5 }

/-- Options supplying `page: 3, limit: 10, skip: 0`. -/
def c2wOptsA : QueryOptions :=
  { page := some 3, limit := some 10, skip := some 0 }

/-- Options supplying only `skip: 4`. -/
def c2wOptsB : QueryOptions :=
  { skip := some 4 }

/-- Options supplying the non-positive `limit: 0`. -/
def c9Opts : QueryOptions :=
  { limit := some 0 }

/-- Options supplying the negative `limit: -5`. -/
def c9wOpts : QueryOptions :=
  { limit := some (-5) }

/-- Options supplying `page: 2, limit: 10` together with `skip: 7`. -/
def c10Opts : QueryOptions :=
  { page := some 2, limit := some 10, skip := some 7 }

/-!
## Helper lemmas
-/

/-- For a positive divisor, `jsCeilDiv` is the ceiling of the exact
rational quotient, i.e. the value of `Math.ceil(a / b)`. -/
theorem jsCeilDiv_eq_ceil (a b : Int) (hb : 0 < b) :
    jsCeilDiv a b = Int.ceil ((a : ℚ) / (b : ℚ)) := by
  unfold jsCeilDiv
  rw [Int.fdiv_eq_ediv _ hb.le]
  have hb' : ((b.toNat : ℤ)) = b := Int.toNat_of_nonneg hb.le
  rw [← hb', ← Rat.floor_intCast_div_natCast (-a) b.toNat]
  push_cast
  rw [neg_div, Int.floor_neg, neg_neg]

/-- Copying an object-typed key under the truthiness test is the
identity: well-typed object values are never falsy. -/
theorem copyIfTruthy_eq {α : Type} (x : Option α) : copyIfTruthy x = x := by
  cases x <;> simp [copyIfTruthy, jsTruthyObj]

/-- Once the Delegate is cached, further getter evaluations return the
cached instance and leave the state unchanged. -/
theorem runAccesses_cached (createAdapter : String → Nat → DelegateId)
    (modelName : String) (n : Nat) (d : DelegateId) (c : Nat) :
    runAccesses createAdapter modelName n ⟨some d, c⟩ =
      (List.replicate n d, ⟨some d, c⟩) := by
  induction n with
  | zero => simp [runAccesses]
  | succ m ih => simp [runAccesses, databaseGet, ih, List.replicate_succ]

/-!
## Claim C5 — argument normalization
-/

/-- Claim C5 (confirmed): `buildQueryArgs` includes each of the keys
`where`, `include`, `select`, `orderBy`, `skip`, `take` in the Delegate
argument object exactly when the caller supplied that key with a
non-`undefined` value, and it preserves the supplied value; in particular
`skip = 0` and `take = 0` are passed through rather than dropped. -/
theorem C5_buildQueryArgs_keys (options : QueryOptions) :
    (buildQueryArgs (some options)).where_ = options.where_ ∧
    (buildQueryArgs (some options)).include_ = options.include_ ∧
    (buildQueryArgs (some options)).select = options.select ∧
    (buildQueryArgs (some options)).orderBy = options.orderBy ∧
    (buildQueryArgs (some options)).skip = options.skip ∧
    (buildQueryArgs (some options)).take = options.take := by
  simp [buildQueryArgs, copyIfTruthy_eq, Option.bind]

/-!
## Claim C7 — `count(where)` agrees with `length(findMany(where))`
-/

/-- Claim C7 (confirmed; store semantics modelled from the spec): for
every `where` condition and every store contents, `count(where)` equals
the length of the list returned by `findMany(where)` when no writes occur
between the two reads (both run against the same store state). -/
theorem C7_count_eq_findMany_length (store : List Entity) (w : WhereCond) :
    repoCount store (some w) = ((repoFindMany store w).length : Int) := by
  simp [repoCount, storeCount, repoFindMany, storeFindMany, buildQueryArgs,
    copyIfTruthy_eq, Option.bind, matchesOptWhere]

/-!
## Claim C8 — lazy Delegate memoization
-/

/-- Claim C8 (confirmed): over any sequence of `n` repository operations
starting from a fresh instance, `adapterFactory.createAdapter` is invoked
at most once (exactly once when `n ≥ 1`, on the first operation), the
memoized `_database` reference is written exactly once (it is `none` until
the first access and permanently holds the first-constructed instance
afterwards), and every operation uses that same first-constructed Delegate
instance. -/
theorem C8_delegate_memoized (createAdapter : String → Nat → DelegateId)
    (modelName : String) (n : Nat) :
    (runAccesses createAdapter modelName n ⟨none, 0⟩).2.factoryCalls = min n 1 ∧
    (runAccesses createAdapter modelName n ⟨none, 0⟩).2._database =
      (if n = 0 then none else some (createAdapter modelName 0)) ∧
    (runAccesses createAdapter modelName n ⟨none, 0⟩).1 =
      List.replicate n (createAdapter modelName 0) := by
  cases n with
  | zero => simp [runAccesses]
  | succ m =>
      simp [runAccesses, databaseGet, runAccesses_cached,
        List.replicate_succ, Nat.succ_min_succ]

/-!
## Claim C6 — `createUserAdapter` vs `createAdapter("User")`
-/

/-- Claim C6 (counterexample): on a database client with no binding for
`User`, `createAdapter("User")` throws (`Database model 'User' not found
…`) while `createUserAdapter()` returns normally with the `undefined`
accessor — the two are not behaviorally identical. -/
theorem C6_counterexample :
    prismaCreateUserAdapter [] = .ok none ∧
    prismaCreateAdapter [] "User" ≠ prismaCreateUserAdapter [] := by
  constructor
  · rfl
  · intro h
    simp [prismaCreateAdapter, prismaCreateUserAdapter, jsToLower] at h

/-- Claim C6 (amended): when a binding for the `user` model key exists,
`createUserAdapter()` and `createAdapter("User")` return that same
Delegate; when no binding exists, `createAdapter("User")` throws an error
naming the model, while `createUserAdapter()` returns `undefined` without
failing. -/
theorem C6_amended (client : ClientBindings) :
    (∀ d : DelegateId, client.lookup "user" = some d →
      prismaCreateAdapter client "User" = .ok (some d) ∧
      prismaCreateUserAdapter client = .ok (some d)) ∧
    (client.lookup "user" = none →
      prismaCreateUserAdapter client = .ok none ∧
      ∃ msg, prismaCreateAdapter client "User" = .error (.error msg)) := by
  have hkey : jsToLower "User" = "user" := rfl
  constructor
  · intro d hd
    constructor
    · simp [prismaCreateAdapter, hkey, hd]
    · simp [prismaCreateUserAdapter, hd]
  · intro hd
    constructor
    · simp [prismaCreateUserAdapter, hd]
    · exact ⟨"Database model 'User' not found in DatabaseClient",
        by simp [prismaCreateAdapter, hkey, hd]⟩

/-- Witness for the amended Claim C6 at the concrete clients
`[("user", 7)]` and `[]`. -/
theorem C6_amended_witness :
    (prismaCreateAdapter [("user", 7)] "User" = .ok (some 7) ∧
      prismaCreateUserAdapter [("user", 7)] = .ok (some 7)) ∧
    prismaCreateUserAdapter ([] : ClientBindings) = .ok none := by
  refine ⟨(C6_amended [("user", 7)]).1 7 rfl, ((C6_amended []).2 rfl).1⟩

/-!
## Claim C3 — `withTransaction` commit/rollback contract
-/

/-- Claim C3 (code bug): `withTransaction` never reaches the callback.
The very first statement of the transaction body assigns
`transactionalRepo.database = tx[...]` through the prototype's getter-only
`database` accessor, which throws `TypeError` in strict-mode class code;
`$transaction` rolls back and rethrows.  Hence for every callback — in
particular one that returns normally — `withTransaction` returns that
`TypeError` instead of committing and returning the callback's result (the
store is left unchanged only because no work was ever attempted). -/
theorem C3_withTransaction_raises_before_callback {R : Type}
    (modelName : String) (defaultLimit : Int) (txModels : ClientBindings)
    (store : List Entity)
    (callback : OwnProps → List Entity → Except JsErr (R × List Entity)) :
    withTransaction modelName defaultLimit txModels store callback =
      (.error (.typeError
        "Cannot set property database of #<BaseRepository> which has only a getter"),
       store) := rfl

/-!
## Claim C4 — the transaction-bound clone
-/

/-- Claim C4 (code bug): no transaction-bound clone is ever produced.
Constructing the clone faults on its first statement — the strict-mode
assignment to the setter-less `database` accessor throws `TypeError` — so
the callback never receives a repository whose Delegate is the transaction
handle's accessor (with matching `modelName` and `defaultLimit`). -/
theorem C4_transactional_clone_never_constructed (txDelegate : Option DelegateId)
    (modelName : String) (defaultLimit : Int) :
    buildTransactionalClone txDelegate modelName defaultLimit =
      .error (.typeError
        "Cannot set property database of #<BaseRepository> which has only a getter") :=
  rfl

/-!
## Claim C1 — shape of the `PaginatedResult`
-/

/-- Claim C1 (counterexample): with `page: 0, limit: 0` supplied (values
other than `undefined`) and delegate reads returning normally, the result
does not carry `page = options.page` and `limit = options.limit`: the `||`
defaulting replaces the falsy `0`s by `1` and the default limit. -/
theorem C1_counterexample :
    c1Opts.page = some 0 ∧ c1Opts.limit = some 0 ∧
    (findAllPaginated 20 noopDelegate c1Opts).page ≠ 0 ∧
    (findAllPaginated 20 noopDelegate c1Opts).limit ≠ 0 := by
  refine ⟨rfl, rfl, ?_, ?_⟩ <;>
    simp [findAllPaginated, effPage, effLimit, jsOr, c1Opts]

/-- Claim C1 (amended): whenever both delegate reads return (`findMany`
yielding `data`, `count` yielding `total`), the `PaginatedResult` carries
exactly those `data` and `total`, `page = options.page` when supplied and
nonzero (else `1`), `limit = options.limit` when supplied and nonzero
(else the configured default limit), `totalPages = ceil(total / limit)`,
`hasNext = page < totalPages`, `hasPrevious = page > 1`, and
`data.length ≤ limit` whenever the Delegate honors the `take` argument
(stated for a positive effective limit; `limit = 0` cannot occur when the
configured default is positive). -/
theorem C1_amended_paginated_result (defaultLimit : Int) (d : Delegate)
    (options : QueryOptions) (hhonor : HonorsTake d)
    (hlim : 1 ≤ effLimit defaultLimit options) :
    (findAllPaginated defaultLimit d options).data =
      d.findMany (paginatedArgs defaultLimit options) ∧
    (findAllPaginated defaultLimit d options).total = d.count options.where_ ∧
    (findAllPaginated defaultLimit d options).page = effPage options ∧
    (findAllPaginated defaultLimit d options).limit =
      effLimit defaultLimit options ∧
    (findAllPaginated defaultLimit d options).totalPages =
      Int.ceil (((findAllPaginated defaultLimit d options).total : ℚ) /
        ((findAllPaginated defaultLimit d options).limit : ℚ)) ∧
    ((findAllPaginated defaultLimit d options).hasNext = true ↔
      (findAllPaginated defaultLimit d options).page <
        (findAllPaginated defaultLimit d options).totalPages) ∧
    ((findAllPaginated defaultLimit d options).hasPrevious = true ↔
      1 < (findAllPaginated defaultLimit d options).page) ∧
    (((findAllPaginated defaultLimit d options).data.length : Int) ≤
      (findAllPaginated defaultLimit d options).limit) := by
  have htake : (paginatedArgs defaultLimit options).take =
      some (effLimit defaultLimit options) := by
    simp [paginatedArgs, buildQueryArgs]
  refine ⟨rfl, rfl, rfl, rfl, ?_, ?_, ?_, ?_⟩
  · exact jsCeilDiv_eq_ceil _ _ (lt_of_lt_of_le Int.zero_lt_one hlim)
  · simp [findAllPaginated]
  · simp [findAllPaginated]
  · exact hhonor _ _ htake (le_trans zero_le_one hlim)

/-- Witness for the amended Claim C1 at `defaultLimit = 20`, the trivial
Delegate and empty options. -/
theorem C1_amended_witness :
    HonorsTake noopDelegate ∧
    1 ≤ effLimit 20 ({} : QueryOptions) ∧
    (findAllPaginated 20 noopDelegate {}).totalPages =
      Int.ceil (((findAllPaginated 20 noopDelegate {}).total : ℚ) /
        ((findAllPaginated 20 noopDelegate {}).limit : ℚ)) ∧
    (((findAllPaginated 20 noopDelegate {}).data.length : Int) ≤
      (findAllPaginated 20 noopDelegate {}).limit) := by
  have hh : HonorsTake noopDelegate := by
    intro args t _ h0
    simpa [noopDelegate] using h0
  have hl : 1 ≤ effLimit 20 ({} : QueryOptions) := by decide
  obtain ⟨-, -, -, -, h5, -, -, h8⟩ :=
    C1_amended_paginated_result 20 noopDelegate {} hh hl
  exact ⟨hh, hl, h5, h8⟩

/-!
## Claim C2 — the `skip`/`take` actually handed to `findMany`
-/

/-- Claim C2 (counterexample): with `page: 2, limit: 10, skip: 0, take: 5`
the `findMany` call receives `skip = 10` (the caller's explicit `skip: 0`
is falsy and does not override the computed `(page-1)*limit`) and
`take = 10` (the caller's `take: 5` is overwritten by `take: limit`). -/
theorem C2_counterexample :
    c2Opts.skip = some 0 ∧ c2Opts.take = some 5 ∧
    (paginatedArgs 20 c2Opts).skip ≠ some 0 ∧
    (paginatedArgs 20 c2Opts).take ≠ some 5 := by
  refine ⟨rfl, rfl, ?_, ?_⟩ <;>
    simp [paginatedArgs, buildQueryArgs, effSkip, effPage, effLimit, jsOr,
      c2Opts]

/-- Claim C2 (amended): the `findMany` delegate call always receives
`take = limit` (a caller-supplied `take` never overrides it), and receives
`skip` equal to the caller's `skip` when that is supplied and nonzero, and
equal to the computed `(page-1)*limit` when `skip` is absent or `0`. -/
theorem C2_amended_findMany_args (defaultLimit : Int) (options : QueryOptions) :
    (paginatedArgs defaultLimit options).take =
      some (effLimit defaultLimit options) ∧
    (∀ s : Int, options.skip = some s → s ≠ 0 →
      (paginatedArgs defaultLimit options).skip = some s) ∧
    (options.skip = none ∨ options.skip = some 0 →
      (paginatedArgs defaultLimit options).skip =
        some ((effPage options - 1) * effLimit defaultLimit options)) := by
  refine ⟨by simp [paginatedArgs, buildQueryArgs], ?_, ?_⟩
  · intro s hs hns
    simp [paginatedArgs, buildQueryArgs, effSkip, jsOr, hs, hns]
  · rintro (hs | hs) <;>
      simp [paginatedArgs, buildQueryArgs, effSkip, jsOr, hs]

/-- Witness for the amended Claim C2 at concrete options: `take` becomes
the effective limit, a nonzero caller `skip` is used verbatim, and a
caller `skip: 0` is replaced by the computed window. -/
theorem C2_amended_witness :
    (paginatedArgs 20 c2wOptsA).take = some 10 ∧
    (paginatedArgs 20 c2wOptsB).skip = some 4 ∧
    (paginatedArgs 20 c2wOptsA).skip = some 20 := by
  obtain ⟨ha1, -, ha3⟩ := C2_amended_findMany_args 20 c2wOptsA
  obtain ⟨-, hb2, -⟩ := C2_amended_findMany_args 20 c2wOptsB
  refine ⟨by rw [ha1]; rfl, hb2 4 rfl (by decide), by rw [ha3 (Or.inr rfl)]; rfl⟩

/-!
## Claim C9 — non-positive caller-supplied `limit`
-/

/-- Claim C9 (counterexample): a caller-supplied `limit: 0` does not fail
fast; `findAllPaginated` returns normally and the supplied limit is
silently coerced to the configured default limit (`20`). -/
theorem C9_counterexample :
    c9Opts.limit = some 0 ∧
    (findAllPaginated 20 noopDelegate c9Opts).limit = 20 := by
  exact ⟨rfl, rfl⟩

/-- Claim C9 (amended): a caller-supplied `limit ≤ 0` is not rejected:
`findAllPaginated` returns normally with effective limit equal to the
configured default when the supplied limit is `0` (silent coercion), and
equal to the supplied negative limit itself otherwise. -/
theorem C9_amended_nonpositive_limit (defaultLimit : Int) (d : Delegate)
    (options : QueryOptions) (l : Int) (hl : options.limit = some l)
    (hle : l ≤ 0) :
    (findAllPaginated defaultLimit d options).limit =
      (if l = 0 then defaultLimit else l) := by
  simp [findAllPaginated, effLimit, jsOr, hl]

/-- Witness for the amended Claim C9 at the supplied `limit: -5`. -/
theorem C9_amended_witness :
    c9wOpts.limit = some (-5) ∧ ((-5 : Int) ≤ 0) ∧
    (findAllPaginated 20 noopDelegate c9wOpts).limit =
      (if (-5 : Int) = 0 then 20 else -5) := by
  exact ⟨rfl, by decide,
    C9_amended_nonpositive_limit 20 noopDelegate c9wOpts (-5) rfl (by decide)⟩

/-!
## Claim C10 — metadata ignores a caller-supplied `skip`
-/

/-- Claim C10 (confirmed): when a nonzero `skip` is supplied together with
a `page` value, the data window is fetched with the caller's `skip`, while
every returned metadata field (`page`, `limit`, `total`, `totalPages`,
`hasNext`, `hasPrevious`) is computed without reference to `skip` — it is
invariant under changing the supplied `skip` — so the metadata can
describe a different window than the data actually returned. -/
theorem C10_metadata_ignores_skip (defaultLimit : Int) (d : Delegate)
    (options : QueryOptions) (s p : Int) (hs : options.skip = some s)
    (hsne : s ≠ 0) (hp : options.page = some p) :
    (paginatedArgs defaultLimit options).skip = some s ∧
    (findAllPaginated defaultLimit d options).data =
      d.findMany (paginatedArgs defaultLimit options) ∧
    ∀ s' : Int,
      (findAllPaginated defaultLimit d { options with skip := some s' }).page =
        (findAllPaginated defaultLimit d options).page ∧
      (findAllPaginated defaultLimit d { options with skip := some s' }).limit =
        (findAllPaginated defaultLimit d options).limit ∧
      (findAllPaginated defaultLimit d { options with skip := some s' }).total =
        (findAllPaginated defaultLimit d options).total ∧
      (findAllPaginated defaultLimit d
          { options with skip := some s' }).totalPages =
        (findAllPaginated defaultLimit d options).totalPages ∧
      (findAllPaginated defaultLimit d { options with skip := some s' }).hasNext =
        (findAllPaginated defaultLimit d options).hasNext ∧
      (findAllPaginated defaultLimit d
          { options with skip := some s' }).hasPrevious =
        (findAllPaginated defaultLimit d options).hasPrevious := by
  refine ⟨?_, rfl, ?_⟩
  · simp [paginatedArgs, buildQueryArgs, effSkip, jsOr, hs, hsne]
  · intro s'
    exact ⟨rfl, rfl, rfl, rfl, rfl, rfl⟩

/-- Witness for Claim C10 at `page: 2, limit: 10, skip: 7`: the data
window uses `skip = 7`, and replacing the supplied skip by `3` leaves the
returned `page` metadata unchanged. -/
theorem C10_witness :
    c10Opts.skip = some 7 ∧ ((7 : Int) ≠ 0) ∧ c10Opts.page = some 2 ∧
    (paginatedArgs 20 c10Opts).skip = some 7 ∧
    (findAllPaginated 20 noopDelegate { c10Opts with skip := some 3 }).page =
      (findAllPaginated 20 noopDelegate c10Opts).page := by
  obtain ⟨h1, -, h3⟩ :=
    C10_metadata_ignores_skip 20 noopDelegate c10Opts 7 2 rfl (by decide) rfl
  exact ⟨rfl, by decide, rfl, h1, (h3 3).1⟩

end RepoFactory
